import Mathlib

/-!
Verification of the ygate APRS igate (ygate.py): packet reframing/filtering
pipeline, session state machine, and beacon/telemetry scheduler, shallowly
embedded over lists of characters and rationals.
-/

namespace Ygate

/-! ### User and protocol constants (ygate.py lines 33-69) -/

def USER : List Char := "VE3YSH-9".data

def PASS : List Char := "17846".data

def LAT : List Char := "4448.72N".data

def LONG : List Char := "07559.15W".data

def ICON : List Char := "&".data

def OVERLAY : List Char := "R".data

def POSITION : List Char := LAT ++ OVERLAY ++ LONG

def TO_CALL : List Char := ">APZYG2".data

def MESSAGE : List Char := "Yaesu ygate https://github.com/craigerl/ygate".data

def tcpipColon : List Char := ",TCPIP*:".data

def tcpipBang : List Char := ",TCPIP*:!".data

def PREFIX : List Char := USER ++ TO_CALL ++ tcpipColon

def MY_POSITION_STRING : List Char := USER ++ TO_CALL ++ tcpipBang ++ POSITION ++ ICON ++ MESSAGE

def userWord : List Char := "user ".data

def passWord : List Char := " pass ".data

def versWord : List Char := " vers ygate.py 2.00\n".data

def MY_LOGIN_STRING : List Char := userWord ++ USER ++ passWord ++ PASS ++ versWord

def PARAMETER_NAMES : List Char := ":VE3YSH-9 :PARM.CPU,Load,Temp,RH".data

def UNIT_MESSAGE : List Char := ":VE3YSH-9 :UNIT.degC,%,degC,%".data

def EQUATION_COEF : List Char := ":VE3YSH-9 :EQNS.0,0.5,0,0,1,0,0,0.5,-50,0,0.5,0".data

def BEACON_INTERVAL_S : ℚ := 1800

def TELEMETRY_INTERVAL_S : ℚ := 300

def crlf : List Char := "\r\n".data

/-! ### Substring search primitives (model of `re.search` on literal patterns
and of the fixed patterns used at ygate.py lines 238, 240, 250, 253) -/

/-- Predicate `hasSub pat s`: holds iff `pat` occurs as a contiguous substring of `s`
(Python `pat in s` / `re.search` on a literal pattern). -/
def hasSub (pat : List Char) : List Char → Bool
  | [] => pat.isEmpty
  | c :: rest => pat.isPrefixOf (c :: rest) || hasSub pat rest

/-- Suffix of `s` immediately after the first occurrence of `pat`, if any. -/
def dropAfterFirst (pat : List Char) : List Char → Option (List Char)
  | [] => if pat.isEmpty then some [] else none
  | c :: rest =>
    if pat.isPrefixOf (c :: rest) then some ((c :: rest).drop pat.length)
    else dropAfterFirst pat rest

def lbrk : List Char := "[".data

def midUI : List Char := "] <UI".data

def closeUI : List Char := ">:".data

def spLbrk : List Char := " [".data

/-- Detection of a Yaesu routing line: Python
`re.search` with the unanchored pattern bracket, dot-star, bracket-space-`<UI`,
dot-star, `>:` (ygate.py line 238).  A match exists iff a first `[` is followed
somewhere by `] <UI` which is followed somewhere by `>:`. -/
def uiDetect (s : List Char) : Bool :=
  match dropAfterFirst lbrk s with
  | none => false
  | some t =>
    match dropAfterFirst midUI t with
    | none => false
    | some u => hasSub closeUI u

/-- Rightmost index `p` in `s` at which `] <UI` matches and `>:` still occurs
after it; this is where a greedy first dot-star ends. -/
def lastFeasibleMid : List Char → Option Nat
  | [] => none
  | c :: rest =>
    match lastFeasibleMid rest with
    | some i => some (i + 1)
    | none =>
      if midUI.isPrefixOf (c :: rest) && hasSub closeUI ((c :: rest).drop midUI.length)
      then some 0 else none

/-- Rightmost index of an occurrence of `pat` in `s`. -/
def lastOcc (pat : List Char) : List Char → Option Nat
  | [] => if pat.isEmpty then some 0 else none
  | c :: rest =>
    match lastOcc pat rest with
    | some i => some (i + 1)
    | none => if pat.isPrefixOf (c :: rest) then some 0 else none

/-- If the substitution pattern (space, bracket, dot-star, `] <UI`, dot-star,
`>:` — ygate.py line 240) matches starting at the head of `s`, return the
length of the greedy (leftmost-longest, Python backtracking) match. -/
def greedyLen (s : List Char) : Option Nat :=
  if spLbrk.isPrefixOf s then
    let t := s.drop spLbrk.length
    match lastFeasibleMid t with
    | none => none
    | some p =>
      match lastOcc closeUI (t.drop (p + midUI.length)) with
      | none => none
      | some q => some (spLbrk.length + p + midUI.length + q + closeUI.length)
  else none

def qMid : List Char := ",qAO,".data

def colonStr : List Char := ":".data

/-- The replacement text `,qAO,<callsign>:` injected at ygate.py line 240. -/
def qRepl : List Char := qMid ++ USER ++ colonStr

/-- Scan left to right, replace each greedy match of the substitution
pattern by `qRepl`, continue after it.  Structural recursion on a fuel
argument; each step consumes at least one character, so fuel equal to the
length of the string (as supplied by `reSubUI`) is never exhausted. -/
def reSubUIAux : Nat → List Char → List Char
  | 0, s => s
  | _ + 1, [] => []
  | n + 1, c :: rest =>
    match greedyLen (c :: rest) with
    | some m => qRepl ++ reSubUIAux n (rest.drop (m - 1))
    | none => c :: reSubUIAux n rest

/-- Python `re.sub` of the substitution pattern by `qRepl` (ygate.py
line 240). -/
def reSubUI (s : List Char) : List Char := reSubUIAux s.length s

/-- True iff the substitution pattern matches somewhere in `s` (i.e. `re.sub`
at ygate.py line 240 would rewrite something). -/
def hasSpaceMatch : List Char → Bool
  | [] => false
  | c :: rest => (greedyLen (c :: rest)).isSome || hasSpaceMatch rest

def tcpPat : List Char := ",TCP".data

def RFONLY : List Char := "RFONLY".data

def NOGATE : List Char := "NOGATE".data

/-- Python `re.search` of the anchored pattern `}`-at-start, dot-star, `,TCP`,
dot-star, `:` on the payload (ygate.py line 253). -/
def thirdPartyDetect (p : List Char) : Bool :=
  match p with
  | [] => false
  | c :: rest =>
    c == '}' &&
      (match dropAfterFirst tcpPat rest with
       | some u => hasSub colonStr u
       | none => false)

/-! ### The packet framer (ygate.py lines 238-261) -/

inductive DropReason
  | EmptyPayload
  | InternetSourced
  | InternetSourcedEmbedded
  | RfOnlyFlag
  | NoGateFlag
deriving DecidableEq, Repr

inductive FrameResult
  | packet (pkt : List Char)
  | drop (reason : DropReason)
  | notRouting
deriving DecidableEq, Repr

def FrameResult.isPacket : FrameResult → Bool
  | .packet _ => true
  | _ => false

/-- The reframing-and-filtering pipeline applied to a (stripped) serial line
and the (stripped) line that follows it: detect the routing marker, inject
`,qAO,<callsign>:`, then apply the five drop rules in source order
(ygate.py lines 238-261). -/
def frameLine (line payload : List Char) : FrameResult :=
  if uiDetect line then
    let routing := reSubUI line
    if payload.length == 0 then .drop .EmptyPayload
    else if hasSub tcpPat routing then .drop .InternetSourced
    else if thirdPartyDetect payload then .drop .InternetSourcedEmbedded
    else if hasSub RFONLY routing then .drop .RfOnlyFlag
    else if hasSub NOGATE routing then .drop .NoGateFlag
    else .packet (routing ++ payload)
  else .notRouting

/-! ### Numeric formatting (ygate.py lines 78-86 and 205-214) -/

/-- Python `round` to an integer: round half to even. -/
def pyRound (q : ℚ) : ℤ :=
  if q - ⌊q⌋ < 1/2 then ⌊q⌋
  else if q - ⌊q⌋ > 1/2 then ⌊q⌋ + 1
  else if ⌊q⌋ % 2 = 0 then ⌊q⌋ else ⌊q⌋ + 1

def natDigits (n : Nat) : List Char := Nat.toDigits 10 n

def padZeros (w : Nat) (s : List Char) : List Char :=
  List.replicate (w - s.length) '0' ++ s

/-- Python format `{n:03d}`: zero-pad to total width 3 (sign included). -/
def format03 (n : ℤ) : List Char :=
  if n < 0 then '-' :: padZeros 2 (natDigits n.natAbs)
  else padZeros 3 (natDigits n.toNat)

/-- Python format `{n:d}` of an integer. -/
def intStr (n : ℤ) : List Char :=
  if n < 0 then '-' :: natDigits n.natAbs else natDigits n.toNat

/-- Model of `readDht22` (ygate.py lines 78-81): humidity/temperature raw fields
`{int(round((t+50)*2)):03d},{int(round(h*2)):03d}`. -/
def dhtStr (t h : ℚ) : List Char :=
  format03 (pyRound ((t + 50) * 2)) ++ [','] ++ format03 (pyRound (h * 2))

/-- Model of `getCPULoad` (ygate.py lines 84-86): `{int(round(load,0))}` where `load`
is the percentage load average. -/
def loadStr (load : ℚ) : List Char := intStr (pyRound load)

/-- The telemetry report line built at ygate.py line 210:
`T#<seq:03d>,<round(cpuTemp*2):03d>,<load>,<dht fields>`. -/
def telemStr (seq : Nat) (cpuTemp load dhtT dhtH : ℚ) : List Char :=
  [ 'T', '#'] ++ format03 (Int.ofNat seq) ++ [','] ++ format03 (pyRound (cpuTemp * 2)) ++ [',']
    ++ loadStr load ++ [','] ++ dhtStr dhtT dhtH

/-- Python `str(round(x, 1))` for the CPU temperature comment
(ygate.py line 274), modelled with half-to-even rounding of `10*x`. -/
def round1Str (q : ℚ) : List Char :=
  let n := pyRound (q * 10)
  let sign : List Char := if n < 0 then ['-'] else []
  sign ++ natDigits (n.natAbs / 10) ++ ['.'] ++ natDigits (n.natAbs % 10)

def cpuTempTag : List Char := " CPUTemp:".data

/-- The string `MY_SYSTEM_DATA_STRING` as rebuilt at ygate.py line 274. -/
def sysDataStr (cpuTemp2 : ℚ) : List Char := cpuTempTag ++ round1Str cpuTemp2 ++ ['C']

/-! ### Session state machine and dispatcher loop (ygate.py lines 71-281) -/

inductive AprsIsState
  | NOCONNECT
  | CONNECTED
  | LOGGED_IN
deriving DecidableEq, Repr

/-- The mutable process state threaded through the main loop:
`run_state`, `SEQUENCE_NUMBER`, `last_beacon_time`, `last_telemetry_time`,
plus a flag recording that `os._exit` ran. -/
structure GateState where
  runState : AprsIsState
  seq : Nat
  lastBeacon : ℚ
  lastTelemetry : ℚ
  halted : Bool
deriving DecidableEq, Repr

/-- One loop iteration's external inputs: outcome of each socket operation
in source order, the serial line and the line after it, the two wall-clock
reads (`time.time()` at lines 203 and 271), and the sensor readings. -/
structure Env where
  connectOk : Bool := true
  loginSendOk : Bool := true
  loginVerdict : List Char := []
  time : ℚ := 0
  cpuTemp : ℚ := 0
  load : ℚ := 0
  dhtT : ℚ := 0
  dhtH : ℚ := 0
  telemetrySendOk : Bool := true
  posSendOk : Bool := true
  parmSendOk : Bool := true
  unitSendOk : Bool := true
  eqnsSendOk : Bool := true
  rawLine : List Char := []
  rawPayload : List Char := []
  packetSendOk : Bool := true
  time2 : ℚ := 0
  cpuTemp2 : ℚ := 0
  oppSendOk : Bool := true

/-- Observable actions of one loop iteration.  Each `send*` constructor
stands for one call site of `send_to_server`, carrying the string passed
and whether the transport reported success. -/
inductive Event
  | sendLogin (ok : Bool)
  | sendTelemetry (msg : List Char) (ok : Bool)
  | sendPosition (msg : List Char) (ok : Bool)
  | sendMeta (msg : List Char) (ok : Bool)
  | sendPacket (msg : List Char) (ok : Bool)
  | sendOpportunistic (msg : List Char) (ok : Bool)
  | connectAttempt (ok : Bool)
  | resetSock
  | sleep (secs : Nat)
  | shutdownSock
  | closeSock
  | closeSerial
  | exitProc (code : Nat)
deriving DecidableEq, Repr

def Event.isSend : Event → Bool
  | sendLogin _ => true
  | sendTelemetry _ _ => true
  | sendPosition _ _ => true
  | sendMeta _ _ => true
  | sendPacket _ _ => true
  | sendOpportunistic _ _ => true
  | _ => false

def Event.isMeta : Event → Bool
  | sendMeta _ _ => true
  | _ => false

def Event.isOpp : Event → Bool
  | sendOpportunistic _ _ => true
  | _ => false

/-- Update `SEQUENCE_NUMBER = (SEQUENCE_NUMBER + 1) % 1000` (ygate.py line 212). -/
def telemBump (n : Nat) : Nat := (n + 1) % 1000

def isNR (c : Char) : Bool := c == '\n' || c == '\r'

/-- Python `line.strip` of the two characters newline and carriage return. -/
def stripNR (s : List Char) : List Char :=
  ((s.dropWhile isNR).reverse.dropWhile isNR).reverse

/-- Python `str.strip()` with no argument (whitespace). -/
def stripWS (s : List Char) : List Char :=
  ((s.dropWhile Char.isWhitespace).reverse.dropWhile Char.isWhitespace).reverse

def verifiedPat : List Char := "verified".data

/-- Telemetry timer block (ygate.py lines 205-214): on expiry, format and
send the telemetry line (result ignored), bump the sequence counter and
update the telemetry timestamp. -/
def telemetryBlock (s : GateState) (env : Env) : GateState × List Event :=
  if env.time - s.lastTelemetry > TELEMETRY_INTERVAL_S then
    ({ s with seq := telemBump s.seq, lastTelemetry := env.time },
     [Event.sendTelemetry (PREFIX ++ telemStr s.seq env.cpuTemp env.load env.dhtT env.dhtH ++ crlf)
        env.telemetrySendOk])
  else (s, [])

/-- Position beacon block (ygate.py lines 216-229): on expiry, send the
position string; on failure reset the socket, sleep 5 s and fall back to
NOCONNECT without touching the timer; on success update the timer and send
the three telemetry metadata packets (results ignored). -/
def beaconBlock (s : GateState) (env : Env) : GateState × List Event :=
  if env.time - s.lastBeacon > BEACON_INTERVAL_S then
    if env.posSendOk then
      ({ s with lastBeacon := env.time },
       [Event.sendPosition (MY_POSITION_STRING ++ crlf) true,
        Event.sendMeta (PREFIX ++ PARAMETER_NAMES ++ crlf) env.parmSendOk,
        Event.sendMeta (PREFIX ++ UNIT_MESSAGE ++ crlf) env.unitSendOk,
        Event.sendMeta (PREFIX ++ EQUATION_COEF ++ crlf) env.eqnsSendOk])
    else
      ({ s with runState := .NOCONNECT },
       [Event.sendPosition (MY_POSITION_STRING ++ crlf) false, .resetSock, .sleep 5])
  else (s, [])

/-- Opportunistic beacon after a packet forward attempt (ygate.py lines
270-281): re-read the clock; if the position interval elapsed, send the
position string with the CPU temperature comment; on failure reset and fall
back to NOCONNECT, on success update the beacon timer. -/
def oppBeacon (s : GateState) (env : Env) : GateState × List Event :=
  if env.time2 - s.lastBeacon > BEACON_INTERVAL_S then
    if env.oppSendOk then
      ({ s with lastBeacon := env.time2 },
       [Event.sendOpportunistic (MY_POSITION_STRING ++ sysDataStr env.cpuTemp2 ++ crlf) true])
    else
      ({ s with runState := .NOCONNECT },
       [Event.sendOpportunistic (MY_POSITION_STRING ++ sysDataStr env.cpuTemp2 ++ crlf) false,
        .resetSock, .sleep 5])
  else (s, [])

/-- Serial line handling (ygate.py lines 233-281): skip empty reads, run the
framer on routing-matching lines, forward survivors (resetting the session
on send failure — note: without leaving the iteration), then run the
opportunistic beacon check. -/
def lineBlock (s : GateState) (env : Env) : GateState × List Event :=
  if env.rawLine.isEmpty then (s, [])
  else
    match frameLine (stripNR env.rawLine) (stripNR env.rawPayload) with
    | .packet pkt =>
      let fwd :=
        if env.packetSendOk then (s, [Event.sendPacket (pkt ++ crlf) true])
        else ({ s with runState := .NOCONNECT },
              [Event.sendPacket (pkt ++ crlf) false, .resetSock, .sleep 5])
      let opp := oppBeacon fwd.1 env
      (opp.1, fwd.2 ++ opp.2)
    | .drop _ => (s, [])
    | .notRouting => (s, [])

/-- The whole LOGGED_IN case of the main loop (ygate.py lines 198-281). -/
def stepLoggedIn (s : GateState) (env : Env) : GateState × List Event :=
  let t := telemetryBlock s env
  let b := beaconBlock t.1 env
  let l := lineBlock b.1 env
  (l.1, t.2 ++ b.2 ++ l.2)

/-- One iteration of the main loop (ygate.py lines 170-281), dispatching on
`run_state`.  The NOCONNECT case opens and connects the socket; the
CONNECTED case sends the login string and checks the verdict line, calling
`os._exit(1)` after teardown when the verdict lacks the substring
`verified`; the LOGGED_IN case runs the scheduler blocks and the framer. -/
def step (s : GateState) (env : Env) : GateState × List Event :=
  if s.halted then (s, [])
  else
    match s.runState with
    | .NOCONNECT =>
      if env.connectOk then ({ s with runState := .CONNECTED }, [Event.connectAttempt true])
      else (s, [Event.connectAttempt false, .resetSock, .sleep 5])
    | .CONNECTED =>
      if env.loginSendOk then
        if hasSub verifiedPat (stripWS env.loginVerdict) then
          ({ s with runState := .LOGGED_IN }, [Event.sendLogin true])
        else
          ({ s with halted := true },
           [Event.sendLogin true, .shutdownSock, .closeSock, .closeSerial, .exitProc 1])
      else (s, [Event.sendLogin false])
    | .LOGGED_IN => stepLoggedIn s env

/-- Process state right before the first loop iteration (ygate.py lines
45 and 150-168): both timers backdated so that they fire immediately. -/
def initState (t0 : ℚ) : GateState :=
  { runState := .NOCONNECT
    seq := 10
    lastBeacon := t0 - BEACON_INTERVAL_S
    lastTelemetry := t0 - BEACON_INTERVAL_S - TELEMETRY_INTERVAL_S
    halted := false }

/-- States reachable by the main loop from its initial state. -/
inductive Reachable : GateState → Prop
  | init (t0 : ℚ) : Reachable (initState t0)
  | next {s : GateState} (env : Env) : Reachable s → Reachable (step s env).1

/-! ### Concrete inputs used in witnesses and counterexamples -/

/-- Scenario A routing line from the Yaesu radio. -/
def c1Line : List Char := "AA6I>APOTU0,K6IXA-3,VACA,WIDE2* [06/02/18 13:47:54] <UI>:".data

/-- Scenario A payload line. -/
def c1Payload : List Char := "/022047z3632.30N/11935.16Wk136/055/A=000300ENROUTE".data

/-- Scenario A expected canonical packet. -/
def c1Packet : List Char :=
  "AA6I>APOTU0,K6IXA-3,VACA,WIDE2*,qAO,VE3YSH-9:/022047z3632.30N/11935.16Wk136/055/A=000300ENROUTE".data

/-- A routing line whose processed routing contains the substring comma-TCP. -/
def c3Line : List Char := "AA6I>APOTU0,TCPIP* [06/02/18 13:47:54] <UI>:".data

/-- A routing line matching the detection pattern with no space before the
bracketed timestamp. -/
def c10Line : List Char := "AA6I>APOTU0,WIDE2*[06/02/18 13:47:54] <UI>:".data

def xPayload : List Char := "/022047z3632.30N".data

/-- A login verdict for rejected credentials, as really emitted by APRS-IS
servers (spec Scenario C). -/
def badVerdict : List Char := "# logresp VE3YSH-9 unverified, server T2ONTARIO".data

/-- The telemetry line spec Scenario D claims. -/
def claimedTelem : List Char := "T#010,147,12,147,094".data

/-- The telemetry line the code produces for the Scenario D readings. -/
def actualTelem : List Char := "T#010,047,12,147,094".data

def connState : GateState :=
  { runState := .CONNECTED, seq := 10, lastBeacon := 0, lastTelemetry := 0, halted := false }

def loginState : GateState :=
  { runState := .LOGGED_IN, seq := 10, lastBeacon := 0, lastTelemetry := 0, halted := false }

/-- Default environment: connect and all sends succeed. -/
def envDefault : Env := {}

def envBadLogin : Env := { loginVerdict := badVerdict }

def envTelem : Env :=
  { time := 1000, cpuTemp := 117/5, load := 12, dhtT := 117/5, dhtH := 47, telemetrySendOk := false }

def envBeaconFail : Env := { time := 2000, posSendOk := false }

def envBeaconOk : Env :=
  { time := 2000, parmSendOk := false, unitSendOk := false, eqnsSendOk := false }

def envFwd : Env :=
  { time := 0, rawLine := c1Line, rawPayload := c1Payload, packetSendOk := false,
    time2 := 4000, oppSendOk := true }

def envFwdOk : Env :=
  { time := 0, rawLine := c1Line, rawPayload := c1Payload, packetSendOk := true,
    time2 := 4000, oppSendOk := false }

def Event.isFwdFail : Event → Bool
  | sendPacket _ false => true
  | _ => false

/-! ### Helper lemmas -/

theorem reSubUIAux_id (n : Nat) (s : List Char) (h : hasSpaceMatch s = false) :
    reSubUIAux n s = s := by
  induction n generalizing s with
  | zero => rfl
  | succ k ih =>
    cases s with
    | nil => rfl
    | cons c rest =>
      simp only [hasSpaceMatch, Bool.or_eq_false_iff] at h
      obtain ⟨h1, h2⟩ := h
      cases hg : greedyLen (c :: rest) with
      | some m => rw [hg] at h1; simp at h1
      | none => simp only [reSubUIAux, hg, ih rest h2]

/-- When the substitution pattern matches nowhere, `re.sub` returns the
line unchanged. -/
theorem reSubUI_id (s : List Char) (h : hasSpaceMatch s = false) : reSubUI s = s :=
  reSubUIAux_id s.length s h

theorem frameLine_eq_packet {line payload : List Char}
    (h1 : uiDetect line = true) (h2 : payload ≠ [])
    (h3 : hasSub tcpPat (reSubUI line) = false)
    (h4 : thirdPartyDetect payload = false)
    (h5 : hasSub RFONLY (reSubUI line) = false)
    (h6 : hasSub NOGATE (reSubUI line) = false) :
    frameLine line payload = .packet (reSubUI line ++ payload) := by
  have hlen : (payload.length == 0) = false := by
    simp [List.length_eq_zero, h2]
  simp only [frameLine, h1, if_true, hlen, h3, h4, h5, h6, Bool.false_eq_true, if_false]

/-! ### Claim C1 -/

/-- Claim C1: for every routing+payload pair where the routing line matches
the bracketed-timestamp `<UI...>:` detection pattern, the payload is
non-empty, and none of the drop substrings appear (comma-TCP in the
processed routing, third-party internet payload, RFONLY or NOGATE in the
processed routing), the framer produces the canonical packet: the routing
line with the marker substituted by `,qAO,<callsign>:` followed by the
payload unchanged.  In particular Scenario A yields the expected packet. -/
theorem c1_framer_canonical :
    (∀ line payload : List Char, uiDetect line = true → payload ≠ [] →
      hasSub tcpPat (reSubUI line) = false → thirdPartyDetect payload = false →
      hasSub RFONLY (reSubUI line) = false → hasSub NOGATE (reSubUI line) = false →
      frameLine line payload = .packet (reSubUI line ++ payload)) ∧
    frameLine c1Line c1Payload = .packet c1Packet ∧
    reSubUI c1Line ++ c1Payload = c1Packet := by
  refine ⟨fun line payload h1 h2 h3 h4 h5 h6 => frameLine_eq_packet h1 h2 h3 h4 h5 h6, ?_, ?_⟩
  · decide
  · decide

/-- Witness for C1: the universal part applied to the Scenario A input. -/
theorem c1_witness :
    uiDetect c1Line = true ∧ c1Payload ≠ [] ∧
    frameLine c1Line c1Payload = .packet (reSubUI c1Line ++ c1Payload) :=
  ⟨by decide, by decide,
   c1_framer_canonical.1 c1Line c1Payload (by decide) (by decide) (by decide)
     (by decide) (by decide) (by decide)⟩

/-! ### Claim C3 -/

/-- Counterexample to C3 as stated: a recognized routing line whose
processed routing contains comma-TCP, paired with the empty payload, is
dropped as `EmptyPayload` (the first rule fires), not `InternetSourced`. -/
theorem c3_counterexample :
    uiDetect c3Line = true ∧ hasSub tcpPat (reSubUI c3Line) = true ∧
    frameLine c3Line [] = .drop .EmptyPayload ∧
    frameLine c3Line [] ≠ .drop .InternetSourced := by
  refine ⟨by decide, by decide, by decide, by decide⟩

/-- Claim C3 as amended: for every recognized routing line whose processed
routing contains comma-TCP and every NON-EMPTY payload, the framer result
is the `InternetSourced` drop decision (with an empty payload the
`EmptyPayload` rule fires first). -/
theorem c3_tcp_drop :
    ∀ line payload : List Char, uiDetect line = true →
      hasSub tcpPat (reSubUI line) = true → payload ≠ [] →
      frameLine line payload = .drop .InternetSourced := by
  intro line payload h1 h2 h3
  have hlen : (payload.length == 0) = false := by
    simp [List.length_eq_zero, h3]
  simp only [frameLine, h1, if_true, hlen, h2, Bool.false_eq_true, if_false]

/-- Witness for C3 (amended): the `,TCPIP*` routing line with a non-empty
payload is dropped as internet-sourced. -/
theorem c3_witness :
    uiDetect c3Line = true ∧ hasSub tcpPat (reSubUI c3Line) = true ∧ xPayload ≠ [] ∧
    frameLine c3Line xPayload = .drop .InternetSourced :=
  ⟨by decide, by decide, by decide, c3_tcp_drop c3Line xPayload (by decide) (by decide) (by decide)⟩

/-! ### Claim C10 -/

/-- Claim C10: the detection pattern does not require a space before the
bracket, but the substitution pattern does.  Hence every line that matches
detection while the space-prefixed substitution pattern matches nowhere is
treated as a routing line, the substitution leaves it unchanged, and (when
no drop rule fires) the forwarded packet is the original line verbatim —
still carrying the bracketed `<UI...>:` marker, with no `,qAO,<callsign>:`
entry injected — followed by the payload. -/
theorem c10_nospace_marker_kept :
    ∀ line payload : List Char, uiDetect line = true → hasSpaceMatch line = false →
      payload ≠ [] → hasSub tcpPat line = false → thirdPartyDetect payload = false →
      hasSub RFONLY line = false → hasSub NOGATE line = false →
      reSubUI line = line ∧ frameLine line payload = .packet (line ++ payload) := by
  intro line payload h1 hs h2 h3 h4 h5 h6
  have hid : reSubUI line = line := reSubUI_id line hs
  refine ⟨hid, ?_⟩
  have := frameLine_eq_packet h1 h2 (by rw [hid]; exact h3) h4
    (by rw [hid]; exact h5) (by rw [hid]; exact h6)
  rwa [hid] at this

/-- Witness for C10: a concrete no-space routing line is forwarded
unmodified. -/
theorem c10_witness :
    uiDetect c10Line = true ∧ hasSpaceMatch c10Line = false ∧
    reSubUI c10Line = c10Line ∧ frameLine c10Line xPayload = .packet (c10Line ++ xPayload) := by
  have h := c10_nospace_marker_kept c10Line xPayload (by decide) (by decide) (by decide)
    (by decide) (by decide) (by decide) (by decide)
  exact ⟨by decide, by decide, h.1, h.2⟩

/-! ### Claim C2 -/

/-- Claim C2 names a code bug: on the real rejected-credentials verdict
line `# logresp VE3YSH-9 unverified, server ...`, the substring check for
`verified` succeeds (because `unverified` contains `verified`), so the
process transitions to LOGGED_IN instead of tearing down and exiting; the
only event of the iteration is the successful login send, with no socket
or serial close and no exit. -/
theorem c2_unverified_accepted :
    hasSub verifiedPat (stripWS badVerdict) = true ∧
    (step connState envBadLogin).1.runState = .LOGGED_IN ∧
    (step connState envBadLogin).1.halted = false ∧
    (step connState envBadLogin).2 = [.sendLogin true] := by
  refine ⟨by decide, by decide, by decide, by decide⟩

/-! ### Claim C4 -/

/-- For the Scenario D sensor readings (CPU temperature 23.4 °C, DHT
temperature 23.4 °C, load 12 %, humidity 47 %, sequence 10) the code's
telemetry line is `T#010,047,12,147,094`: the second field is
`round(cpuTemp*2)`, matching the gateway's own EQNS coefficients
`0,0.5,0`. -/
theorem telemEval : telemStr 10 (117/5) 12 (117/5) 47 = actualTelem := by
  have e1 : pyRound ((117/5 : ℚ) * 2) = 47 := by norm_num [pyRound]
  have e2 : pyRound (((117/5 : ℚ) + 50) * 2) = 147 := by norm_num [pyRound]
  have e3 : pyRound ((47 : ℚ) * 2) = 94 := by norm_num [pyRound]
  have e4 : pyRound (12 : ℚ) = 12 := by norm_num [pyRound]
  simp only [telemStr, dhtStr, loadStr, e1, e2, e3, e4]
  decide

/-- Counterexample to C4 as stated: with CPU temperature 23.4 the second
telemetry field is `round(23.4*2) = 047`, not `round((23.4+50)*2) = 147`,
so the emitted line differs from the claimed `T#010,147,12,147,094`. -/
theorem c4_counterexample :
    telemStr 10 (117/5) 12 (117/5) 47 = actualTelem ∧
    telemStr 10 (117/5) 12 (117/5) 47 ≠ claimedTelem := by
  refine ⟨telemEval, ?_⟩
  rw [telemEval]
  decide

/-- Claim C4 as amended: the telemetry report line is
`T#<seq:3>,<round(cpuTemp*2):3>,<load:int>,<round((dhtTemp+50)*2):3>,<round(humidity*2):3>`
prefixed with the gateway's routing prefix; with CPU and DHT temperature
23.4, humidity 47, load 12 and sequence 10 the line is
`T#010,047,12,147,094`. -/
theorem c4_telemetry_line :
    (∀ (s : GateState) (env : Env), env.time - s.lastTelemetry > TELEMETRY_INTERVAL_S →
      (telemetryBlock s env).2 =
        [.sendTelemetry (PREFIX ++ telemStr s.seq env.cpuTemp env.load env.dhtT env.dhtH ++ crlf)
          env.telemetrySendOk]) ∧
    telemStr 10 (117/5) 12 (117/5) 47 = actualTelem := by
  refine ⟨fun s env h => ?_, telemEval⟩
  simp only [telemetryBlock, if_pos h]

/-- Witness for C4 (amended): the telemetry block at a due timer emits
exactly the telemetry send. -/
theorem c4_witness :
    envTelem.time - loginState.lastTelemetry > TELEMETRY_INTERVAL_S ∧
    (telemetryBlock loginState envTelem).2 =
      [.sendTelemetry
        (PREFIX ++ telemStr loginState.seq envTelem.cpuTemp envTelem.load envTelem.dhtT envTelem.dhtH ++ crlf)
        envTelem.telemetrySendOk] :=
  ⟨by norm_num [envTelem, loginState, TELEMETRY_INTERVAL_S],
   c4_telemetry_line.1 loginState envTelem
     (by norm_num [envTelem, loginState, TELEMETRY_INTERVAL_S])⟩

/-! ### Structural lemmas about the loop blocks -/

theorem telemetryBlock_seq (s : GateState) (env : Env) :
    (telemetryBlock s env).1.seq = s.seq ∨ (telemetryBlock s env).1.seq = telemBump s.seq := by
  unfold telemetryBlock
  split
  · right; rfl
  · left; rfl

theorem beaconBlock_seq (s : GateState) (env : Env) :
    (beaconBlock s env).1.seq = s.seq := by
  unfold beaconBlock
  split
  · split <;> rfl
  · rfl

theorem oppBeacon_seq (s : GateState) (env : Env) :
    (oppBeacon s env).1.seq = s.seq := by
  unfold oppBeacon
  split
  · split <;> rfl
  · rfl

theorem lineBlock_seq (s : GateState) (env : Env) :
    (lineBlock s env).1.seq = s.seq := by
  unfold lineBlock
  split
  · rfl
  · split
    · rw [oppBeacon_seq]
      split <;> rfl
    · rfl
    · rfl

theorem step_seq (s : GateState) (env : Env) :
    (step s env).1.seq = s.seq ∨ (step s env).1.seq = telemBump s.seq := by
  unfold step
  split
  · left; rfl
  · split
    · split <;> (left; rfl)
    · split
      · split
        · left; rfl
        · left; rfl
      · left; rfl
    · unfold stepLoggedIn
      rw [lineBlock_seq, beaconBlock_seq]
      exact telemetryBlock_seq s env

theorem telemBump_lt (n : Nat) : telemBump n < 1000 :=
  Nat.mod_lt _ (by norm_num)

theorem reachable_seq_lt {s : GateState} (h : Reachable s) : s.seq < 1000 := by
  induction h with
  | init t0 => norm_num [initState]
  | next env _ ih =>
    rcases step_seq _ env with h' | h' <;> rw [h']
    · exact ih
    · exact telemBump_lt _

theorem telemBump_iterate (t : Nat) :
    ∀ n, n < 1000 → telemBump^[t] n = (n + t) % 1000 := by
  induction t with
  | zero =>
    intro n h
    simpa using (Nat.mod_eq_of_lt h).symm
  | succ k ih =>
    intro n h
    rw [Function.iterate_succ_apply, ih (telemBump n) (telemBump_lt n)]
    unfold telemBump
    omega

/-! ### Claim C6 -/

/-- Claim C6: the telemetry sequence counter stays in `[0, 1000)` in every
reachable state, each telemetry emission replaces it by its successor
modulo 1000, and after 1000 emissions starting at any `N < 1000` the
counter is `N` again. -/
theorem c6_sequence_wraps :
    (∀ s : GateState, Reachable s → s.seq < 1000) ∧
    (∀ (s : GateState) (env : Env), env.time - s.lastTelemetry > TELEMETRY_INTERVAL_S →
      (telemetryBlock s env).1.seq = (s.seq + 1) % 1000) ∧
    (∀ n : Nat, n < 1000 → telemBump^[1000] n = n) := by
  refine ⟨fun s h => reachable_seq_lt h, fun s env h => ?_, fun n h => ?_⟩
  · simp only [telemetryBlock, if_pos h, telemBump]
  · rw [telemBump_iterate 1000 n h]
    omega

/-- Witness for C6: the initial state's counter, a concrete due telemetry
tick, and wrap-around from 10. -/
theorem c6_witness :
    (initState 0).seq < 1000 ∧
    envTelem.time - loginState.lastTelemetry > TELEMETRY_INTERVAL_S ∧
    (telemetryBlock loginState envTelem).1.seq = (loginState.seq + 1) % 1000 ∧
    telemBump^[1000] 10 = 10 :=
  ⟨c6_sequence_wraps.1 _ (Reachable.init 0),
   by norm_num [envTelem, loginState, TELEMETRY_INTERVAL_S],
   c6_sequence_wraps.2.1 loginState envTelem
     (by norm_num [envTelem, loginState, TELEMETRY_INTERVAL_S]),
   c6_sequence_wraps.2.2 10 (by norm_num)⟩

/-! ### Claim C5 -/

/-- Counterexample to C5 as stated: the state reached after one successful
connect is CONNECTED and is reachable, yet its next iteration invokes
`send_to_server` (with the login string). -/
theorem c5_counterexample :
    Reachable (step (initState 0) envDefault).1 ∧
    (step (initState 0) envDefault).1.runState = .CONNECTED ∧
    ((step (step (initState 0) envDefault).1 envDefault).2.any Event.isSend) = true :=
  ⟨Reachable.next envDefault (Reachable.init 0), by decide, by decide⟩

/-- Claim C5 as amended: an iteration entered in NOCONNECT never calls
`send_to_server`; an iteration entered in CONNECTED calls it only with the
login string; every other send happens in an iteration entered in
LOGGED_IN. -/
theorem c5_sends_by_state :
    (∀ (s : GateState) (env : Env), s.runState = .NOCONNECT →
      (step s env).2.any Event.isSend = false) ∧
    (∀ (s : GateState) (env : Env) (e : Event), s.runState = .CONNECTED →
      e ∈ (step s env).2 → e.isSend = true →
      e = .sendLogin true ∨ e = .sendLogin false) ∧
    (∀ (s : GateState) (env : Env) (e : Event), e ∈ (step s env).2 → e.isSend = true →
      (e = .sendLogin true ∨ e = .sendLogin false) ∨ s.runState = .LOGGED_IN) := by
  refine ⟨fun s env h => ?_, fun s env e h hm hs => ?_, fun s env e hm hs => ?_⟩
  · by_cases hh : s.halted
    · simp [step, hh]
    · cases hc : env.connectOk <;>
        simp [step, hh, h, hc, Event.isSend]
  · by_cases hh : s.halted
    · simp [step, hh] at hm
    · cases hl : env.loginSendOk
      · simp only [step, hh, Bool.false_eq_true, if_false, h, hl] at hm
        simp at hm
        subst hm
        exact Or.inr rfl
      · cases hv : hasSub verifiedPat (stripWS env.loginVerdict)
        · simp only [step, hh, h, hl, hv, Bool.false_eq_true, if_false, if_true] at hm
          simp at hm
          rcases hm with rfl | rfl | rfl | rfl | rfl
          · exact Or.inl rfl
          · simp [Event.isSend] at hs
          · simp [Event.isSend] at hs
          · simp [Event.isSend] at hs
          · simp [Event.isSend] at hs
        · simp only [step, hh, h, hl, hv, Bool.false_eq_true, if_false, if_true] at hm
          simp at hm
          subst hm
          exact Or.inl rfl
  · cases hrs : s.runState with
    | LOGGED_IN => exact Or.inr rfl
    | NOCONNECT =>
      by_cases hh : s.halted
      · simp [step, hh] at hm
      · cases hc : env.connectOk
        · simp only [step, hh, hrs, hc, Bool.false_eq_true, if_false, if_true] at hm
          simp at hm
          rcases hm with rfl | rfl | rfl
          · simp [Event.isSend] at hs
          · simp [Event.isSend] at hs
          · simp [Event.isSend] at hs
        · simp only [step, hh, hrs, hc, Bool.false_eq_true, if_false, if_true] at hm
          simp at hm
          subst hm
          simp [Event.isSend] at hs
    | CONNECTED =>
      by_cases hh : s.halted
      · simp [step, hh] at hm
      · cases hl : env.loginSendOk
        · simp only [step, hh, hrs, hl, Bool.false_eq_true, if_false] at hm
          simp at hm
          subst hm
          exact Or.inl (Or.inr rfl)
        · cases hv : hasSub verifiedPat (stripWS env.loginVerdict)
          · simp only [step, hh, hrs, hl, hv, Bool.false_eq_true, if_false, if_true] at hm
            simp at hm
            rcases hm with rfl | rfl | rfl | rfl | rfl
            · exact Or.inl (Or.inl rfl)
            · simp [Event.isSend] at hs
            · simp [Event.isSend] at hs
            · simp [Event.isSend] at hs
            · simp [Event.isSend] at hs
          · simp only [step, hh, hrs, hl, hv, Bool.false_eq_true, if_false, if_true] at hm
            simp at hm
            subst hm
            exact Or.inl (Or.inl rfl)

/-- Witness for C5 (amended): a NOCONNECT iteration from the initial state
performs no send. -/
theorem c5_witness :
    (initState 0).runState = .NOCONNECT ∧
    (step (initState 0) envDefault).2.any Event.isSend = false :=
  ⟨by decide, c5_sends_by_state.1 (initState 0) envDefault (by decide)⟩

/-! ### Claim C7 -/

/-- Claim C7: when the position-beacon interval has expired, a failed
position send resets the session (socket reset event, 5-second backoff
event, state back to NOCONNECT) and leaves the beacon timer unchanged so
the beacon is retried after reconnect; a successful send updates the timer,
keeps the state, and additionally sends exactly the three telemetry
metadata packets (parameter names, units, equation coefficients). -/
theorem c7_position_beacon :
    ∀ (s : GateState) (env : Env), env.time - s.lastBeacon > BEACON_INTERVAL_S →
      (env.posSendOk = false →
        (beaconBlock s env).1.runState = .NOCONNECT ∧
        (beaconBlock s env).1.lastBeacon = s.lastBeacon ∧
        (beaconBlock s env).2 =
          [.sendPosition (MY_POSITION_STRING ++ crlf) false, .resetSock, .sleep 5]) ∧
      (env.posSendOk = true →
        (beaconBlock s env).1.runState = s.runState ∧
        (beaconBlock s env).1.lastBeacon = env.time ∧
        (beaconBlock s env).2 =
          [.sendPosition (MY_POSITION_STRING ++ crlf) true,
           .sendMeta (PREFIX ++ PARAMETER_NAMES ++ crlf) env.parmSendOk,
           .sendMeta (PREFIX ++ UNIT_MESSAGE ++ crlf) env.unitSendOk,
           .sendMeta (PREFIX ++ EQUATION_COEF ++ crlf) env.eqnsSendOk] ∧
        ((beaconBlock s env).2.filter Event.isMeta).length = 3) := by
  intro s env h
  constructor
  · intro hp
    simp [beaconBlock, h, hp]
  · intro hp
    simp [beaconBlock, h, hp, Event.isMeta]

/-- Witness for C7: a due beacon timer with a failing transport resets the
session without touching the timer. -/
theorem c7_witness :
    envBeaconFail.time - loginState.lastBeacon > BEACON_INTERVAL_S ∧
    envBeaconFail.posSendOk = false ∧
    ((beaconBlock loginState envBeaconFail).1.runState = .NOCONNECT ∧
     (beaconBlock loginState envBeaconFail).1.lastBeacon = loginState.lastBeacon ∧
     (beaconBlock loginState envBeaconFail).2 =
       [.sendPosition (MY_POSITION_STRING ++ crlf) false, .resetSock, .sleep 5]) :=
  ⟨by norm_num [envBeaconFail, loginState, BEACON_INTERVAL_S], by decide,
   (c7_position_beacon loginState envBeaconFail
     (by norm_num [envBeaconFail, loginState, BEACON_INTERVAL_S])).1 (by decide)⟩

/-! ### Opportunistic-beacon lemmas -/

theorem telemetryBlock_noOpp (s : GateState) (env : Env) :
    (telemetryBlock s env).2.any Event.isOpp = false := by
  unfold telemetryBlock
  split <;> simp [Event.isOpp]

theorem beaconBlock_noOpp (s : GateState) (env : Env) :
    (beaconBlock s env).2.any Event.isOpp = false := by
  unfold beaconBlock
  split
  · split <;> simp [Event.isOpp]
  · simp

theorem oppBeacon_opp_iff (s : GateState) (env : Env) :
    ((oppBeacon s env).2.any Event.isOpp = true) ↔
      env.time2 - s.lastBeacon > BEACON_INTERVAL_S := by
  unfold oppBeacon
  split
  · split <;> simp_all [Event.isOpp]
  · simp_all

@[simp] theorem isOpp_sendOpportunistic (m : List Char) (k : Bool) :
    Event.isOpp (.sendOpportunistic m k) = true := rfl

@[simp] theorem isOpp_sendPacket (m : List Char) (k : Bool) :
    Event.isOpp (.sendPacket m k) = false := rfl

@[simp] theorem isOpp_resetSock : Event.isOpp .resetSock = false := rfl

@[simp] theorem isOpp_sleep (n : Nat) : Event.isOpp (.sleep n) = false := rfl

@[simp] theorem isFwdFail_sendPacket (m : List Char) (k : Bool) :
    Event.isFwdFail (.sendPacket m k) = !k := by cases k <;> rfl

@[simp] theorem isFwdFail_resetSock : Event.isFwdFail .resetSock = false := rfl

@[simp] theorem isFwdFail_sleep (n : Nat) : Event.isFwdFail (.sleep n) = false := rfl

@[simp] theorem isFwdFail_sendOpportunistic (m : List Char) (k : Bool) :
    Event.isFwdFail (.sendOpportunistic m k) = false := rfl

@[simp] theorem isPacket_packet (p : List Char) :
    FrameResult.isPacket (.packet p) = true := rfl

@[simp] theorem isPacket_drop (r : DropReason) :
    FrameResult.isPacket (.drop r) = false := rfl

@[simp] theorem isPacket_notRouting : FrameResult.isPacket .notRouting = false := rfl

theorem isPacket_exists {r : FrameResult} (h : r.isPacket = true) :
    ∃ pkt, r = .packet pkt := by
  cases r with
  | packet pkt => exact ⟨pkt, rfl⟩
  | drop reason => simp [FrameResult.isPacket] at h
  | notRouting => simp [FrameResult.isPacket] at h

theorem isEmpty_false_of_ne {l : List Char} (h : l ≠ []) : l.isEmpty = false := by
  cases l with
  | nil => exact absurd rfl h
  | cons c rest => rfl

theorem lineBlock_opp_iff (s : GateState) (env : Env) :
    ((lineBlock s env).2.any Event.isOpp = true) ↔
      (env.rawLine ≠ [] ∧
       (frameLine (stripNR env.rawLine) (stripNR env.rawPayload)).isPacket = true ∧
       env.time2 - s.lastBeacon > BEACON_INTERVAL_S) := by
  by_cases he : env.rawLine = []
  · simp [lineBlock, he]
  · have he' : env.rawLine.isEmpty = false := isEmpty_false_of_ne he
    cases hf : frameLine (stripNR env.rawLine) (stripNR env.rawPayload) with
    | packet pkt =>
      by_cases hp : env.packetSendOk
      · simp only [lineBlock, he', Bool.false_eq_true, if_false, hf, hp, if_true,
          List.any_append, List.any_cons, List.any_nil, isOpp_sendPacket,
          Bool.or_false, Bool.false_or]
        rw [oppBeacon_opp_iff]
        simp [he]
      · simp only [Bool.not_eq_true] at hp
        simp only [lineBlock, he', Bool.false_eq_true, if_false, hf, hp,
          List.any_append, List.any_cons, List.any_nil, isOpp_sendPacket,
          isOpp_resetSock, isOpp_sleep, Bool.or_false, Bool.false_or]
        rw [oppBeacon_opp_iff]
        simp [he]
    | drop reason => simp [lineBlock, he', hf, he]
    | notRouting => simp [lineBlock, he', hf, he]

theorem oppBeacon_runState (s : GateState) (env : Env) :
    (oppBeacon s env).1.runState = s.runState ∨
    (oppBeacon s env).1.runState = .NOCONNECT := by
  unfold oppBeacon
  split
  · split
    · left; rfl
    · right; rfl
  · left; rfl

/-! ### Claim C8 -/

/-- Counterexample to C8 as stated: in a LOGGED_IN iteration whose radio
packet forward FAILS (the send returns failure and the session is reset),
the opportunistic position beacon is nevertheless sent in the same
iteration, because the code falls through to the beacon check without
leaving the iteration. -/
theorem c8_counterexample :
    envFwd.packetSendOk = false ∧
    (step loginState envFwd).2.any Event.isFwdFail = true ∧
    (step loginState envFwd).2.any Event.isOpp = true := by
  have hframe : frameLine (stripNR c1Line) (stripNR c1Payload) = .packet c1Packet := by decide
  have hne : ¬(c1Line = []) := by decide
  refine ⟨rfl, ?_, ?_⟩ <;>
    norm_num [step, loginState, envFwd, stepLoggedIn, telemetryBlock, beaconBlock,
      lineBlock, oppBeacon, hframe, hne, TELEMETRY_INTERVAL_S, BEACON_INTERVAL_S,
      List.any_append]

/-- Claim C8 as amended: within a LOGGED_IN iteration, the opportunistic
position beacon (position string with CPU temperature comment) is emitted
iff a serial line was read, the framer produced a packet (so a forward was
attempted, successful or not), and the position interval had elapsed at the
clock re-read after the forward; outside LOGGED_IN iterations it is never
emitted. -/
theorem c8_opportunistic_beacon :
    (∀ (s : GateState) (env : Env), s.runState = .LOGGED_IN → s.halted = false →
      (((step s env).2.any Event.isOpp) = true ↔
        (env.rawLine ≠ [] ∧
         (frameLine (stripNR env.rawLine) (stripNR env.rawPayload)).isPacket = true ∧
         env.time2 - (beaconBlock (telemetryBlock s env).1 env).1.lastBeacon >
           BEACON_INTERVAL_S))) ∧
    (∀ (s : GateState) (env : Env), s.runState ≠ .LOGGED_IN →
      ((step s env).2.any Event.isOpp) = false) := by
  constructor
  · intro s env h1 h2
    simp only [step, h1, h2, Bool.false_eq_true, if_false, stepLoggedIn,
      List.any_append, telemetryBlock_noOpp, beaconBlock_noOpp, Bool.false_or]
    exact lineBlock_opp_iff _ env
  · intro s env h1
    by_cases hh : s.halted
    · simp [step, hh]
    · cases hrs : s.runState with
      | LOGGED_IN => exact absurd hrs h1
      | NOCONNECT =>
        cases hc : env.connectOk <;> simp [step, hh, hrs, hc, Event.isOpp]
      | CONNECTED =>
        cases hl : env.loginSendOk
        · simp [step, hh, hrs, hl, Event.isOpp]
        · cases hv : hasSub verifiedPat (stripWS env.loginVerdict) <;>
            simp [step, hh, hrs, hl, hv, Event.isOpp]

/-- Witness for C8 (amended): a CONNECTED iteration emits no opportunistic
beacon. -/
theorem c8_witness :
    connState.runState ≠ .LOGGED_IN ∧
    (step connState envDefault).2.any Event.isOpp = false :=
  ⟨by decide, c8_opportunistic_beacon.2 connState envDefault (by decide)⟩

/-! ### Claim C9 -/

/-- Claim C9: among the LOGGED_IN sends, only the primary position beacon,
the radio-packet forward, and the opportunistic beacon check the send
result and reset the session on failure.  A failed telemetry send leaves
the run state unchanged and still bumps the sequence counter and the
telemetry timer; failed metadata sends (PARM, UNIT, EQNS) leave the run
state unchanged; while a failed position send, a failed forward, and a
failed opportunistic send all drive the state to NOCONNECT. -/
theorem c9_send_result_handling :
    (∀ (s : GateState) (env : Env), env.time - s.lastTelemetry > TELEMETRY_INTERVAL_S →
      env.telemetrySendOk = false →
      (telemetryBlock s env).1.runState = s.runState ∧
      (telemetryBlock s env).1.seq = telemBump s.seq ∧
      (telemetryBlock s env).1.lastTelemetry = env.time) ∧
    (∀ (s : GateState) (env : Env), env.time - s.lastBeacon > BEACON_INTERVAL_S →
      env.posSendOk = true → env.parmSendOk = false → env.unitSendOk = false →
      env.eqnsSendOk = false → (beaconBlock s env).1.runState = s.runState) ∧
    (∀ (s : GateState) (env : Env), env.time - s.lastBeacon > BEACON_INTERVAL_S →
      env.posSendOk = false → (beaconBlock s env).1.runState = .NOCONNECT) ∧
    (∀ (s : GateState) (env : Env), env.rawLine ≠ [] →
      (frameLine (stripNR env.rawLine) (stripNR env.rawPayload)).isPacket = true →
      env.packetSendOk = false → (lineBlock s env).1.runState = .NOCONNECT) ∧
    (∀ (s : GateState) (env : Env), env.rawLine ≠ [] →
      (frameLine (stripNR env.rawLine) (stripNR env.rawPayload)).isPacket = true →
      env.packetSendOk = true → env.time2 - s.lastBeacon > BEACON_INTERVAL_S →
      env.oppSendOk = false → (lineBlock s env).1.runState = .NOCONNECT) := by
  refine ⟨fun s env h ht => ?_, fun s env h hp _ _ _ => ?_, fun s env h hp => ?_,
    fun s env hne hpk hp => ?_, fun s env hne hpk hp hd ho => ?_⟩
  · simp [telemetryBlock, h]
  · simp [beaconBlock, h, hp]
  · simp [beaconBlock, h, hp]
  · obtain ⟨pkt, hf⟩ := isPacket_exists hpk
    have he : env.rawLine.isEmpty = false := isEmpty_false_of_ne hne
    simp only [lineBlock, he, Bool.false_eq_true, if_false, hf, hp]
    rcases oppBeacon_runState { s with runState := .NOCONNECT } env with h' | h' <;>
      simp_all
  · obtain ⟨pkt, hf⟩ := isPacket_exists hpk
    have he : env.rawLine.isEmpty = false := isEmpty_false_of_ne hne
    simp only [lineBlock, he, Bool.false_eq_true, if_false, hf, hp, if_true]
    simp [oppBeacon, hd, ho]

/-- Witness for C9: a due telemetry tick whose send fails still bumps the
counter and timer and stays LOGGED_IN. -/
theorem c9_witness :
    envTelem.time - loginState.lastTelemetry > TELEMETRY_INTERVAL_S ∧
    envTelem.telemetrySendOk = false ∧
    ((telemetryBlock loginState envTelem).1.runState = loginState.runState ∧
     (telemetryBlock loginState envTelem).1.seq = telemBump loginState.seq ∧
     (telemetryBlock loginState envTelem).1.lastTelemetry = envTelem.time) :=
  ⟨by norm_num [envTelem, loginState, TELEMETRY_INTERVAL_S], by decide,
   c9_send_result_handling.1 loginState envTelem
     (by norm_num [envTelem, loginState, TELEMETRY_INTERVAL_S]) (by decide)⟩

end Ygate
